import Mathlib

/-!
Verification of the rule-based classification core of the NudgeAI hackathon
demo (`nudgeai/backend/task_extractor.py` and `nudgeai/backend/ai_agent.py`),
shallowly embedded in Lean 4.

Conventions of the embedding:
* Python `needle in haystack` on strings is `pyIn needle haystack`
  (infix containment on the character lists).
* Python `str.lower()` is `pyLower` (character-wise `Char.toLower`; all text
  involved is ASCII, where the two agree), and Python's slice `s[:n]` is
  `pyTake s n` (both slice by code point).
* `datetime.now() + timedelta(days=n)).strftime("%Y-%m-%d")` is abstracted by
  a parameter `fmtDate : Nat → String` mapping the day offset `n` to the
  formatted date at the current clock instant; a fixed `fmtDate` models a
  fixed clock instant.
* The module-level mutable list `confirmed_tasks` is threaded explicitly:
  `extract_task` takes the current list and returns the new one.
* File I/O (`data/tasks.json`) is modelled by an explicit `StorageState` and
  an explicit `parseJson` parameter for the external `json.load`; code that
  can raise returns `Except`.
-/

/-- Python's `str.lower()` (ASCII). -/
def pyLower (s : String) : String :=
  ⟨s.data.map Char.toLower⟩

/-- Python's slice `s[:n]`. -/
def pyTake (s : String) (n : Nat) : String :=
  ⟨s.data.take n⟩

/-- Python's substring test `needle in haystack`. -/
def pyIn (needle haystack : String) : Bool :=
  decide (needle.data <:+: haystack.data)

/-- Python's `any(w in text for w in ws)`. -/
def anyIn (text : String) (ws : List String) : Bool :=
  ws.any (fun w => pyIn w text)

/-- The dict returned by `extract_task` (task_extractor.py lines 188-195). -/
structure TaskCandidate where
  task : Option String
  assignee : String
  deadline : Option String
  confidence : String
  source : String
  subjectOrChannel : String
deriving DecidableEq, Repr

/-- One entry of the module-level `confirmed_tasks` list
(task_extractor.py lines 178-186). `addedOn` abstracts `datetime.now()`. -/
structure AuditEntry where
  task : String
  assignee : String
  deadline : Option String
  confidence : String
  addedOn : Nat
  source : String
  subjectOrChannel : String
deriving DecidableEq, Repr

/-- The email rule chain of `extract_task` (task_extractor.py lines 26-153):
the `(task, assignee, deadline, confidence)` tuple produced by the first
matching branch, with the initial values `(none, "You", none, "low")`
(lines 20-23) when nothing matches.  `combinedText` and `subjectText` are
the lower-cased buffers computed at lines 16-18; `subj` is the original
`subject_or_channel`, sliced un-lowered into some task texts. -/
def emailRules (subj : String) (fmtDate : Nat → String)
    (combinedText subjectText : String) :
    Option String × String × Option String × String :=
      if pyIn "revised document" combinedText
          || pyIn "send the revised document" combinedText then
        (some "Send the revised document", "Ravindu", some "Friday", "high")
      else if pyIn "follow up with the client" combinedText
          || (pyIn "follow up" combinedText && pyIn "client" combinedText) then
        (some "Follow up with the client", "Ravindu", some (fmtDate 1), "high")
      else if pyIn "urgent" subjectText || pyIn "asap" combinedText
          || pyIn "immediately" combinedText then
        (some ("Complete urgent task: " ++ pyTake subj 50), "You", some "Today",
          "high")
      else if pyIn "password reset" combinedText
          || (pyIn "password" combinedText && pyIn "reset" combinedText) then
        (some "Update security credentials", "You", some (fmtDate 2), "high")
      else if pyIn "phishing" combinedText || pyIn "security" combinedText then
        (some "Update security and change credentials", "You", some "Today",
          "high")
      else if pyIn "revisions" combinedText
          || (pyIn "update" combinedText && pyIn "version" combinedText) then
        (some "Revise and update document/proposal", "You", some (fmtDate 3),
          "medium")
      else if pyIn "please review" combinedText
          || (pyIn "review" combinedText && !pyIn "resolved" combinedText) then
        (some ("Review: " ++ pyTake subj 50), "You", some (fmtDate 2), "medium")
      else if pyIn "please check" combinedText
          || (pyIn "check" combinedText && !pyIn "deployment" combinedText) then
        (some ("Check and verify: " ++ pyTake subj 50), "You", some (fmtDate 2),
          "medium")
      else if pyIn "quote" combinedText || pyIn "proposal" combinedText then
        (some "Prepare quote/proposal", "You", some (fmtDate 3), "medium")
      else if pyIn "confirm" combinedText
          || (pyIn "approval" combinedText && pyIn "go-live" combinedText) then
        (some "Confirm approval/signature", "You", some (fmtDate 1), "high")
      else if pyIn "schedule" combinedText
          || (pyIn "meeting" combinedText
              && (pyIn "schedule" combinedText || pyIn "propose" combinedText)) then
        (some "Schedule meeting/call", "You", some (fmtDate 1), "medium")
      else if pyIn "invoice" combinedText || pyIn "payment" combinedText
          || pyIn "billing" combinedText then
        (some "Process invoice/payment/billing", "You", some (fmtDate 5),
          "medium")
      else if pyIn "feedback" combinedText
          || (pyIn "report" combinedText && !pyIn "outage" combinedText)
          || pyIn "summary" combinedText || pyIn "submit" combinedText then
        (some "Submit feedback/report/summary", "You", some (fmtDate 2),
          "medium")
      else if pyIn "training" combinedText || pyIn "compliance" combinedText
          || pyIn "acknowledge" combinedText
          || (pyIn "policy" combinedText && pyIn "read" combinedText) then
        (some "Complete training/acknowledge policy", "You", some (fmtDate 7),
          "medium")
      else if pyIn "contract" combinedText
          || (pyIn "review" combinedText && pyIn "contract" combinedText) then
        (some "Review and finalize contract", "You", some (fmtDate 3), "medium")
      else if pyIn "data" combinedText
          || (pyIn "export" combinedText && pyIn "data" combinedText) then
        (some "Prepare and send data export", "You", some (fmtDate 1), "medium")
      else if pyIn "approve" combinedText
          && (pyIn "post" combinedText || pyIn "copy" combinedText
              || pyIn "campaign" combinedText) then
        (some "Approve marketing content", "You", some (fmtDate 1), "medium")
      else if pyIn "incident" combinedText || pyIn "outage" combinedText then
        (some "Create incident/outage report", "You", some (fmtDate 2),
          "medium")
      else if pyIn "change request" combinedText
          || pyIn "scope change" combinedText then
        (some "Estimate impact and respond to change request", "You",
          some (fmtDate 2), "medium")
      else if pyIn "recruit" combinedText || pyIn "research" combinedText
          || pyIn "study" combinedText then
        (some "Recruit users/prepare research", "You", some (fmtDate 4),
          "medium")
      else if pyIn "press" combinedText then
        (some "Review and edit press release", "You", some (fmtDate 2),
          "medium")
      else if pyIn "finalize" combinedText || pyIn "sow" combinedText then
        (some "Finalize statement of work", "You", some (fmtDate 3), "medium")
      else if pyIn "renewal" combinedText then
        (some "Review and approve contract renewal", "You", some (fmtDate 10),
          "medium")
      else if pyIn "no action" combinedText || pyIn "fyi" combinedText
          || pyIn "digest" combinedText || pyIn "resolved" combinedText
          || pyIn "deployment" combinedText then
        (none, "You", none, "low")
      else if anyIn combinedText ["can you", "could you", "please", "would you"] then
        (some ("Review and respond: " ++ pyTake subj 50), "You", some (fmtDate 2),
          "low")
      else
        (none, "You", none, "low")

/-- The calendar rule of `extract_task` (task_extractor.py lines 156-161);
`text` is the lower-cased content. -/
def calendarRules (fmtDate : Nat → String) (text : String) :
    Option String × String × Option String × String :=
  if pyIn "prepare" text then
    (some "Prepare meeting summary", "You", some (fmtDate 1), "high")
  else
    (none, "You", none, "low")

/-- The slack rules of `extract_task` (task_extractor.py lines 164-174);
`text` is the lower-cased content. -/
def slackRules (fmtDate : Nat → String) (text : String) :
    Option String × String × Option String × String :=
  if pyIn "check" text && pyIn "logs" text then
    (some "Check server logs", "You", some (fmtDate 1), "medium")
  else if pyIn "deployment" text then
    (some "Update deployment checklist", "You", some (fmtDate 2), "medium")
  else
    (none, "You", none, "low")

/-- The candidate computed by `extract_task` (task_extractor.py lines 16-174
and 188-195), before the audit-list side effect: lower-case and combine the
buffers, run the rule chain of the given source (each chain split out above,
branch for branch), and assemble the result dict. -/
def extractCand (content source subj : String) (fmtDate : Nat → String) :
    TaskCandidate :=
  let text := pyLower content
  let subjectText := pyLower subj
  let combinedText := text ++ " " ++ subjectText
  let r : Option String × String × Option String × String :=
    if source == "email" then emailRules subj fmtDate combinedText subjectText
    else if source == "calendar" then calendarRules fmtDate text
    else if source == "slack" then slackRules fmtDate text
    else (none, "You", none, "low")
  { task := r.1, assignee := r.2.1, deadline := r.2.2.1,
    confidence := r.2.2.2, source := source, subjectOrChannel := subj }

/-- Model of `extract_task` (task_extractor.py lines 11-195) with the module-level
`confirmed_tasks` list threaded explicitly: returns the result dict and the
updated list.  `now` abstracts `datetime.now()` stored in the audit entry. -/
def extract_task (confirmedTasks : List AuditEntry)
    (content source subj : String) (fmtDate : Nat → String) (now : Nat) :
    TaskCandidate × List AuditEntry :=
  let c := extractCand content source subj fmtDate
  match c.task with
  | some t =>
      (c, confirmedTasks ++
        [{ task := t, assignee := c.assignee, deadline := c.deadline,
           confidence := c.confidence, addedOn := now, source := source,
           subjectOrChannel := subj }])
  | none => (c, confirmedTasks)





/-- Whether one of the 23 task-producing email rules above the no-action
branch fires (task_extractor.py lines 28-143), as the same `if`/`elif`
chain over the same conditions: "no task-producing rule above the no-action
branch fires" is exactly `emailPriorMatch content subj = false`. -/
def emailPriorMatchOn (combinedText subjectText : String) : Bool :=
  if pyIn "revised document" combinedText
      || pyIn "send the revised document" combinedText then true
  else if pyIn "follow up with the client" combinedText
      || (pyIn "follow up" combinedText && pyIn "client" combinedText) then true
  else if pyIn "urgent" subjectText || pyIn "asap" combinedText
      || pyIn "immediately" combinedText then true
  else if pyIn "password reset" combinedText
      || (pyIn "password" combinedText && pyIn "reset" combinedText) then true
  else if pyIn "phishing" combinedText || pyIn "security" combinedText then true
  else if pyIn "revisions" combinedText
      || (pyIn "update" combinedText && pyIn "version" combinedText) then true
  else if pyIn "please review" combinedText
      || (pyIn "review" combinedText && !pyIn "resolved" combinedText) then true
  else if pyIn "please check" combinedText
      || (pyIn "check" combinedText && !pyIn "deployment" combinedText) then true
  else if pyIn "quote" combinedText || pyIn "proposal" combinedText then true
  else if pyIn "confirm" combinedText
      || (pyIn "approval" combinedText && pyIn "go-live" combinedText) then true
  else if pyIn "schedule" combinedText
      || (pyIn "meeting" combinedText
      && (pyIn "schedule" combinedText || pyIn "propose" combinedText)) then true
  else if pyIn "invoice" combinedText || pyIn "payment" combinedText
      || pyIn "billing" combinedText then true
  else if pyIn "feedback" combinedText
      || (pyIn "report" combinedText && !pyIn "outage" combinedText)
      || pyIn "summary" combinedText || pyIn "submit" combinedText then true
  else if pyIn "training" combinedText || pyIn "compliance" combinedText
      || pyIn "acknowledge" combinedText
      || (pyIn "policy" combinedText && pyIn "read" combinedText) then true
  else if pyIn "contract" combinedText
      || (pyIn "review" combinedText && pyIn "contract" combinedText) then true
  else if pyIn "data" combinedText
      || (pyIn "export" combinedText && pyIn "data" combinedText) then true
  else if pyIn "approve" combinedText
      && (pyIn "post" combinedText || pyIn "copy" combinedText
      || pyIn "campaign" combinedText) then true
  else if pyIn "incident" combinedText || pyIn "outage" combinedText then true
  else if pyIn "change request" combinedText
      || pyIn "scope change" combinedText then true
  else if pyIn "recruit" combinedText || pyIn "research" combinedText
      || pyIn "study" combinedText then true
  else if pyIn "press" combinedText then true
  else if pyIn "finalize" combinedText || pyIn "sow" combinedText then true
  else if pyIn "renewal" combinedText then true
  else false

/-- Evaluates `emailPriorMatchOn` at the buffers `extract_task` computes for
the given content and subject. -/
def emailPriorMatch (content subj : String) : Bool :=
  emailPriorMatchOn (pyLower content ++ " " ++ pyLower subj) (pyLower subj)

/-- Condition of the "Low confidence / No action" email branch
(task_extractor.py line 145), over the combined buffer. -/
def noActionOn (combinedText : String) : Bool :=
  pyIn "no action" combinedText || pyIn "fyi" combinedText
    || pyIn "digest" combinedText || pyIn "resolved" combinedText
    || pyIn "deployment" combinedText

/-- Evaluates `noActionOn` at the combined buffer of the given content and
subject. -/
def noActionCond (content subj : String) : Bool :=
  noActionOn (pyLower content ++ " " ++ pyLower subj)

/-- Condition of the final catch-all email branch (task_extractor.py
line 149): a directive/politeness marker occurs in the combined buffer. -/
def politenessOn (combinedText : String) : Bool :=
  anyIn combinedText ["can you", "could you", "please", "would you"]

/-- Evaluates `politenessOn` at the combined buffer of the given content and
subject. -/
def politenessCond (content subj : String) : Bool :=
  politenessOn (pyLower content ++ " " ++ pyLower subj)

/-- First-match semantics of the rule chains: `true` iff the first branch of
`extract_task` that fires for this input is one that sets a task.  For email
this is: some rule above the no-action branch fires, or none of the branches
up to and including the no-action branch fires and the politeness catch-all
does. -/
def ruleMatched (content source subj : String) : Bool :=
  if source == "email" then
    emailPriorMatch content subj
      || (!noActionCond content subj && politenessCond content subj)
  else if source == "calendar" then
    pyIn "prepare" (pyLower content)
  else if source == "slack" then
    (pyIn "check" (pyLower content) && pyIn "logs" (pyLower content))
      || pyIn "deployment" (pyLower content)
  else
    false

/-- The dict returned by `TaskAgent.get_response` and
`NLPAgent.get_response` (ai_agent.py). -/
structure ChatIntent where
  response : String
  action : String
  confidence : String
deriving DecidableEq, Repr

/-- Model of `TaskAgent.task_keywords` (ai_agent.py lines 78-87). -/
def task_keywords : List (String × List String) :=
  [("send", ["send", "email", "submit"]),
   ("review", ["review", "check", "verify"]),
   ("schedule", ["schedule", "book", "meeting", "call"]),
   ("approve", ["approve", "accept", "authorize"]),
   ("process", ["process", "handle", "execute"]),
   ("invoice", ["invoice", "billing", "payment"]),
   ("training", ["training", "learn", "course"]),
   ("feedback", ["feedback", "comment", "opinion"])]

/-- Model of `TaskAgent.categorize_task` (ai_agent.py lines 89-95). -/
def categorize_task (taskDescription : String) : String :=
  let taskLower := pyLower taskDescription
  match task_keywords.find? (fun p => p.2.any (fun kw => pyIn kw taskLower)) with
  | some p => p.1
  | none => "general"

/-- Model of `TaskAgent.get_response` (ai_agent.py lines 97-145).  The source
also computes `category = self.categorize_task(task_description)` but never uses
it in any branch, so the binding is omitted here. -/
def TaskAgent_get_response (taskDescription userMessage : String) :
    ChatIntent :=
  let text := pyLower userMessage
  if anyIn text ["done", "completed", "finished", "complete"] then
    { response := "✅ Marking \x27" ++ taskDescription ++ "\x27 complete.",
      action := "complete", confidence := "high" }
  else if anyIn text ["help", "how", "guide", "steps", "what"] then
    { response := "I can guide you through: " ++ taskDescription
        ++ ". Tell me which step you need help with.",
      action := "guide", confidence := "medium" }
  else if anyIn text ["send", "email", "submit"] then
    { response := "I can send or prepare this item for you: " ++ taskDescription
        ++ ". Confirm recipients or provide message body.",
      action := "send", confidence := "high" }
  else if anyIn text ["schedule", "book", "when", "time", "date"] then
    { response := "I can schedule \x27" ++ taskDescription
        ++ "\x27. Please provide a preferred date/time.",
      action := "schedule", confidence := "medium" }
  else if anyIn text ["reassign", "assign to", "change owner", "assign"] then
    { response := "Who should I assign \x27" ++ taskDescription ++ "\x27 to?",
      action := "reassign", confidence := "medium" }
  else
    { response := "Got it. For \x27" ++ taskDescription
        ++ "\x27 I can guide, send, schedule, reassign, or mark complete. What would you like me to do?",
      action := "acknowledge", confidence := "low" }

/-- The fixed root-verb vocabulary in `NLPAgent._extract_intent`
(ai_agent.py line 221). -/
def intentVocab : List String :=
  ["send", "schedule", "approve", "review", "process", "complete", "reassign"]

/-- The `for token in doc` loop of `NLPAgent._extract_intent`
(ai_agent.py lines 217-222): a spaCy doc is abstracted as a list of
`(dep_, lemma_)` token pairs; the first ROOT token whose lower-cased lemma
lies in the fixed vocabulary is returned, else the loop falls through to
`"acknowledge"` (line 223). -/
def rootIntentLoop : List (String × String) → String
  | [] => "acknowledge"
  | (dep, lem) :: rest =>
    if dep == "ROOT" then
      if intentVocab.contains (pyLower lem) then pyLower lem
      else rootIntentLoop rest
    else rootIntentLoop rest

/-- Model of `NLPAgent._extract_intent` (ai_agent.py lines 202-223): the
optional spaCy pipeline `self.nlp` is abstracted as
`nlp : Option (String → List (String × String))` mapping a message to its
tokens' `(dep_, lemma_)` pairs (`none` models spaCy being unavailable). -/
def extract_intent (nlp : Option (String → List (String × String)))
    (userMessage : String) : String :=
  let text := pyLower userMessage
  if anyIn text ["done", "completed", "finished", "complete"] then "complete"
  else if anyIn text ["help", "how", "guide", "steps", "what"] then "guide"
  else if anyIn text ["schedule", "book", "meeting", "call", "time", "date"] then
    "schedule"
  else if anyIn text ["send", "email", "submit"] then "send"
  else if anyIn text ["approve", "approve this", "sign off", "authorize"] then
    "approve"
  else if anyIn text ["reassign", "assign to", "assign"] then "reassign"
  else
    match nlp with
    | some f => rootIntentLoop (f userMessage)
    | none => "acknowledge"

/-- Model of `NLPAgent.get_response` (ai_agent.py lines 225-233). -/
def NLPAgent_get_response (nlp : Option (String → List (String × String)))
    (taskDescription userMessage : String) : ChatIntent :=
  match nlp with
  | none => TaskAgent_get_response taskDescription userMessage
  | some _ =>
    let intent := extract_intent nlp userMessage
    if intent == "complete" then
      { response := "✅ Got it — I\x27ll mark \x27" ++ taskDescription
          ++ "\x27 complete.",
        action := "complete", confidence := "high" }
    else if ["send", "schedule", "approve", "review", "process",
        "reassign"].contains intent then
      TaskAgent_get_response taskDescription userMessage
    else
      TaskAgent_get_response taskDescription userMessage


/-- A persisted task record from `data/tasks.json`, restricted to the fields
the verified operations read or write: `_find_task_index` reads
`t.get("task", "")` and `reassign` reads/writes `"owner"`
(ai_agent.py lines 69, 176-177).  The Python dict may lack these keys
(`get` then yields a default); the embedding fixes them as present strings,
which covers every record the extraction pass creates. -/
structure StoredTask where
  task : String
  owner : String
deriving DecidableEq, Repr

/-- A task reference as accepted by `_find_task_index`
(`Union[int, str]`, ai_agent.py line 49). -/
inductive TaskRef where
  | int (i : Int)
  | str (s : String)
deriving DecidableEq, Repr

/-- All-digit check used by `pyParseInt`. -/
def allDigits (l : List Char) : Bool :=
  !l.isEmpty && l.all Char.isDigit

/-- Digits to the number they denote, base 10. -/
def digitsVal (l : List Char) : Nat :=
  l.foldl (fun acc c => acc * 10 + (c.toNat - 48)) 0

/-- Model of Python's built-in `int(s)` on strings, on its core domain: an
optional sign followed by one or more decimal digits parses to the denoted
integer; anything else (in particular anything containing letters, spaces
between sign and digits, or an empty digit part) raises, modelled as `none`.
(Python additionally strips surrounding whitespace and allows digit-group
underscores; those lexical extras are outside the inputs considered here.) -/
def pyParseInt (s : String) : Option Int :=
  match s.data with
  | '-' :: rest => if allDigits rest then some (-(digitsVal rest : Int)) else none
  | '+' :: rest => if allDigits rest then some ((digitsVal rest : Int)) else none
  | l => if allDigits l then some ((digitsVal l : Int)) else none

/-- The `for i, t in enumerate(tasks)` substring loop of `_find_task_index`
(ai_agent.py lines 68-71), started at index `i`; `q` is already lower-cased. -/
def substringSearchAux (q : String) : Nat → List StoredTask → Option Nat
  | _, [] => none
  | i, t :: rest =>
    if pyIn q (pyLower t.task) then some i
    else substringSearchAux q (i + 1) rest

/-- The substring phase of `_find_task_index`: `q = str(ref).lower()`, then
the first task whose lower-cased description contains `q`
(ai_agent.py lines 67-71). -/
def substringSearch (tasks : List StoredTask) (ref : String) : Option Nat :=
  substringSearchAux (pyLower ref) 0 tasks

/-- Model of `_find_task_index` (ai_agent.py lines 49-71), with the task
collection
(read there via `load_tasks()`) passed explicitly.  An `int` reference is
bounds-checked and never falls through to substring matching; a `str`
reference is first tried as `int(ref)` (falling through on a parse failure
*or* an out-of-bounds value), then as a case-insensitive substring of the
task descriptions. -/
def find_task_index (tasks : List StoredTask) (ref : TaskRef) : Option Nat :=
  match ref with
  | .int i => if 0 ≤ i ∧ i < (tasks.length : Int) then some i.toNat else none
  | .str s =>
    match pyParseInt s with
    | some i =>
      if 0 ≤ i ∧ i < (tasks.length : Int) then some i.toNat
      else substringSearch tasks s
    | none => substringSearch tasks s

/-- The result dict of the `TaskAgent` action methods
(`{"success": ..., "message": ...}` plus `"index"` on success). -/
structure ActionResult where
  success : Bool
  message : String
  index : Option Nat
deriving DecidableEq, Repr

/-- Model of `TaskAgent.reassign` (ai_agent.py lines 171-179), with the
persisted
collection threaded explicitly: the pair is (returned dict, collection as
left on disk by the call).  On a resolved index the owner field is
overwritten and the whole collection saved; otherwise nothing is written. -/
def reassign (tasks : List StoredTask) (ref : TaskRef) (newOwner : String) :
    ActionResult × List StoredTask :=
  match find_task_index tasks ref with
  | none => ({ success := false, message := "Task not found", index := none }, tasks)
  | some idx =>
    let old := (tasks.getD idx { task := "", owner := "" }).owner
    let tasks2 := tasks.set idx
      { tasks.getD idx { task := "", owner := "" } with owner := newOwner }
    ({ success := true,
       message := "Reassigned from " ++ old ++ " to " ++ newOwner,
       index := some idx }, tasks2)

/-- The state of the persisted store file `data/tasks.json` as `load_tasks`
can encounter it: absent, present but failing to open (e.g. a permission
error raised by `open()`), or present with raw contents. -/
inductive StorageState where
  | missing
  | unreadable (err : String)
  | content (raw : String)
deriving DecidableEq, Repr

/-- Model of `load_tasks` (ai_agent.py lines 33-40).  The external
`json.load` is
abstracted as `parseJson : String → Option (List StoredTask)` (`none` for
any exception it raises, including JSON and unicode decode errors).  The
`try`/`except` in the source encloses only `json.load(f)`: a missing file
returns `[]` (line 34-35), a failing `json.load` returns `[]` (lines 37-40),
but an exception raised by `open()` itself (line 36) propagates — modelled
as `Except.error`. -/
def load_tasks (parseJson : String → Option (List StoredTask)) :
    StorageState → Except String (List StoredTask)
  | .missing => .ok []
  | .unreadable err => .error err
  | .content raw => .ok ((parseJson raw).getD [])


/-- The confidence tier the specification pairs with each action token
(spec §4.2); stated from the spec's words, to be compared with
`TaskAgent_get_response`. -/
def actionConfidence : String → String
  | "complete" => "high"
  | "guide" => "medium"
  | "send" => "high"
  | "schedule" => "medium"
  | "reassign" => "medium"
  | _ => "low"

/-- Both arms of the audit-append `match` in `extract_task` return the
computed candidate unchanged, so the first component of `extract_task` is
`extractCand`. -/
theorem extract_task_fst (st : List AuditEntry) (content source subj : String)
    (fmtDate : Nat → String) (now : Nat) :
    (extract_task st content source subj fmtDate now).1
      = extractCand content source subj fmtDate := by
  unfold extract_task
  cases h : (extractCand content source subj fmtDate).task <;> simp [h]

/-- On source "email", `extractCand` delegates to `emailRules` at the
lower-cased buffers. -/
theorem extractCand_email (content subj : String) (fmtDate : Nat → String) :
    extractCand content "email" subj fmtDate =
      { task := (emailRules subj fmtDate
          (pyLower content ++ " " ++ pyLower subj) (pyLower subj)).1,
        assignee := (emailRules subj fmtDate
          (pyLower content ++ " " ++ pyLower subj) (pyLower subj)).2.1,
        deadline := (emailRules subj fmtDate
          (pyLower content ++ " " ++ pyLower subj) (pyLower subj)).2.2.1,
        confidence := (emailRules subj fmtDate
          (pyLower content ++ " " ++ pyLower subj) (pyLower subj)).2.2.2,
        source := "email", subjectOrChannel := subj } := rfl

/-- On source "calendar", `extractCand` delegates to `calendarRules` at the
lower-cased content. -/
theorem extractCand_calendar (content subj : String) (fmtDate : Nat → String) :
    extractCand content "calendar" subj fmtDate =
      { task := (calendarRules fmtDate (pyLower content)).1,
        assignee := (calendarRules fmtDate (pyLower content)).2.1,
        deadline := (calendarRules fmtDate (pyLower content)).2.2.1,
        confidence := (calendarRules fmtDate (pyLower content)).2.2.2,
        source := "calendar", subjectOrChannel := subj } := rfl

/-- On source "slack", `extractCand` delegates to `slackRules` at the
lower-cased content. -/
theorem extractCand_slack (content subj : String) (fmtDate : Nat → String) :
    extractCand content "slack" subj fmtDate =
      { task := (slackRules fmtDate (pyLower content)).1,
        assignee := (slackRules fmtDate (pyLower content)).2.1,
        deadline := (slackRules fmtDate (pyLower content)).2.2.1,
        confidence := (slackRules fmtDate (pyLower content)).2.2.2,
        source := "slack", subjectOrChannel := subj } := rfl

/-- Peels one link off a false `if`/`elif` chain of Booleans: if the chain
returns `true` on its first condition yet evaluates to `false`, that
condition is false and so is the rest of the chain. -/
theorem bchainFalse {c : Prop} [Decidable c] {e : Bool}
    (h : (if c then true else e) = false) : ¬c ∧ e = false := by
  by_cases hc : c
  · rw [if_pos hc] at h
    exact absurd h (by simp)
  · rw [if_neg hc] at h
    exact ⟨hc, h⟩

/-- When no task-producing rule above the no-action branch fires, the email
chain reduces to the no-action test followed by the politeness catch-all. -/
theorem emailRules_of_no_prior (subj : String) (fmtDate : Nat → String)
    (cb sub : String) (h : emailPriorMatchOn cb sub = false) :
    emailRules subj fmtDate cb sub =
      if noActionOn cb then (none, "You", none, "low")
      else if politenessOn cb then
        (some ("Review and respond: " ++ pyTake subj 50), "You",
          some (fmtDate 2), "low")
      else (none, "You", none, "low") := by
  unfold emailPriorMatchOn at h
  obtain ⟨h1, h⟩ := bchainFalse h
  obtain ⟨h2, h⟩ := bchainFalse h
  obtain ⟨h3, h⟩ := bchainFalse h
  obtain ⟨h4, h⟩ := bchainFalse h
  obtain ⟨h5, h⟩ := bchainFalse h
  obtain ⟨h6, h⟩ := bchainFalse h
  obtain ⟨h7, h⟩ := bchainFalse h
  obtain ⟨h8, h⟩ := bchainFalse h
  obtain ⟨h9, h⟩ := bchainFalse h
  obtain ⟨h10, h⟩ := bchainFalse h
  obtain ⟨h11, h⟩ := bchainFalse h
  obtain ⟨h12, h⟩ := bchainFalse h
  obtain ⟨h13, h⟩ := bchainFalse h
  obtain ⟨h14, h⟩ := bchainFalse h
  obtain ⟨h15, h⟩ := bchainFalse h
  obtain ⟨h16, h⟩ := bchainFalse h
  obtain ⟨h17, h⟩ := bchainFalse h
  obtain ⟨h18, h⟩ := bchainFalse h
  obtain ⟨h19, h⟩ := bchainFalse h
  obtain ⟨h20, h⟩ := bchainFalse h
  obtain ⟨h21, h⟩ := bchainFalse h
  obtain ⟨h22, h⟩ := bchainFalse h
  obtain ⟨h23, -⟩ := bchainFalse h
  unfold emailRules noActionOn politenessOn
  rw [if_neg h1, if_neg h2, if_neg h3, if_neg h4, if_neg h5, if_neg h6, if_neg h7, if_neg h8, if_neg h9, if_neg h10, if_neg h11, if_neg h12, if_neg h13, if_neg h14, if_neg h15, if_neg h16, if_neg h17, if_neg h18, if_neg h19, if_neg h20, if_neg h21, if_neg h22, if_neg h23]

/-- C1: for every email input whose lower-cased combined buffer contains
"revised document" (hence also for the scenario content "Please send the
revised document by Friday" with subject "Document Update", and for any such
buffer that additionally contains "invoice"), the first email rule fires and
`extract_task` returns task "Send the revised document", assignee "Ravindu",
deadline "Friday", confidence "high". -/
theorem C1_revised_document_rule (st : List AuditEntry)
    (content subj : String) (fmtDate : Nat → String) (now : Nat)
    (h : pyIn "revised document" (pyLower content ++ " " ++ pyLower subj)
      = true) :
    (extract_task st content "email" subj fmtDate now).1.task
        = some "Send the revised document" ∧
      (extract_task st content "email" subj fmtDate now).1.assignee
        = "Ravindu" ∧
      (extract_task st content "email" subj fmtDate now).1.deadline
        = some "Friday" ∧
      (extract_task st content "email" subj fmtDate now).1.confidence
        = "high" := by
  simp only [extract_task_fst, extractCand_email]
  unfold emailRules
  simp [h]

/-- Witness for C1 at the spec scenario input (which also contains the
medium-confidence phrase "invoice" in a second instantiation checked by the
hypothesis side being about containment only). -/
theorem C1_witness :
    pyIn "revised document"
        (pyLower "Please send the revised document by Friday" ++ " "
          ++ pyLower "Document Update") = true ∧
      (extract_task [] "Please send the revised document by Friday" "email"
          "Document Update" (fun _ => "2026-10-14") 0).1.task
        = some "Send the revised document" ∧
      (extract_task [] "Please send the revised document by Friday" "email"
          "Document Update" (fun _ => "2026-10-14") 0).1.assignee
        = "Ravindu" ∧
      (extract_task [] "Please send the revised document by Friday" "email"
          "Document Update" (fun _ => "2026-10-14") 0).1.deadline
        = some "Friday" ∧
      (extract_task [] "Please send the revised document by Friday" "email"
          "Document Update" (fun _ => "2026-10-14") 0).1.confidence
        = "high" :=
  ⟨by decide,
    C1_revised_document_rule [] "Please send the revised document by Friday"
      "Document Update" (fun _ => "2026-10-14") 0 (by decide)⟩

/-- C5: the returned candidate of `extract_task` does not depend on the
accumulated `confirmed_tasks` audit list (nor on the audit timestamp), so two
calls with identical (content, source, subjectOrChannel) arguments at the
same clock instant (same `fmtDate`) return identical `TaskCandidate`
values regardless of what earlier calls appended. -/
theorem C5_extract_task_pure (st1 st2 : List AuditEntry)
    (content source subj : String) (fmtDate : Nat → String)
    (now1 now2 : Nat) :
    (extract_task st1 content source subj fmtDate now1).1
      = (extract_task st2 content source subj fmtDate now2).1 := by
  unfold extract_task
  cases h : (extractCand content source subj fmtDate).task <;> simp [h]

/-- C7: a `reassign` whose reference resolves to no task returns the
structured failure dict and leaves the persisted collection exactly as it
was (no write occurs). -/
theorem C7_reassign_not_found (tasks : List StoredTask) (ref : TaskRef)
    (newOwner : String) (h : find_task_index tasks ref = none) :
    reassign tasks ref newOwner
      = ({ success := false, message := "Task not found", index := none },
        tasks) := by
  unfold reassign
  rw [h]

/-- Witness for C7: a substring reference matching zero descriptions. -/
theorem C7_witness :
    find_task_index [{ task := "alpha", owner := "A" }] (TaskRef.str "zzz")
        = none ∧
      reassign [{ task := "alpha", owner := "A" }] (TaskRef.str "zzz") "Bob"
        = ({ success := false, message := "Task not found", index := none },
          [{ task := "alpha", owner := "A" }]) :=
  ⟨by decide,
    C7_reassign_not_found [{ task := "alpha", owner := "A" }]
      (TaskRef.str "zzz") "Bob" (by decide)⟩

/-- C8 counterexample: a persisted state that exists but cannot be opened is
NOT turned into the empty collection — the `try`/`except` in `load_tasks`
encloses only `json.load`, so the `open()` failure propagates instead of
yielding `[]`. -/
theorem C8_counterexample :
    load_tasks (fun _ => none) (StorageState.unreadable "PermissionError")
      = Except.error "PermissionError" := rfl

/-- C8 amended: a missing store file and a store file whose contents
`json.load` rejects both yield the empty collection without raising, but a
store file whose `open()` fails propagates that error. -/
theorem C8_amended_load_tasks
    (parseJson : String → Option (List StoredTask)) (raw err : String)
    (h : parseJson raw = none) :
    load_tasks parseJson StorageState.missing = Except.ok [] ∧
      load_tasks parseJson (StorageState.content raw) = Except.ok [] ∧
      load_tasks parseJson (StorageState.unreadable err)
        = Except.error err := by
  refine ⟨rfl, ?_, rfl⟩
  simp [load_tasks, h]

/-- Witness for C8 at a concrete non-JSON store content. -/
theorem C8_witness :
    ((fun _ : String => (none : Option (List StoredTask))) "not json"
        = none) ∧
      load_tasks (fun _ => none) (StorageState.content "not json")
        = Except.ok [] :=
  ⟨rfl, (C8_amended_load_tasks (fun _ => none) "not json" "e" rfl).2.1⟩

/-- C9: the confidence tier returned by the rule-based intent classifier is
the fixed function of the returned action given in the spec, for every task
description and user message; and the scenario "I'm done with this" yields
action "complete" with confidence "high". -/
theorem C9_confidence_fixed_by_action :
    (∀ t m : String, (TaskAgent_get_response t m).confidence
        = actionConfidence (TaskAgent_get_response t m).action) ∧
      (TaskAgent_get_response "Submit report" "I\x27m done with this").action
        = "complete" ∧
      (TaskAgent_get_response "Submit report"
          "I\x27m done with this").confidence = "high" := by
  refine ⟨fun t m => ?_, by decide, by decide⟩
  unfold TaskAgent_get_response
  dsimp only
  split_ifs <;> rfl

/-- C10: a string reference that parses as an in-bounds integer resolves by
position (no substring comparison can divert it), while a parsed integer
that is negative or not less than the collection length does not resolve by
index: the string form falls through to the substring phase and the int form
resolves to nothing. -/
theorem C10_numeric_resolution (tasks : List StoredTask) (s : String)
    (i : Int) (h : pyParseInt s = some i) :
    (0 ≤ i → i < (tasks.length : Int) →
        find_task_index tasks (TaskRef.str s) = some i.toNat) ∧
      (i < 0 ∨ (tasks.length : Int) ≤ i →
        find_task_index tasks (TaskRef.str s) = substringSearch tasks s) ∧
      (i < 0 ∨ (tasks.length : Int) ≤ i →
        find_task_index tasks (TaskRef.int i) = none) := by
  refine ⟨fun h0 hlt => ?_, fun hout => ?_, fun hout => ?_⟩
  · unfold find_task_index
    dsimp only
    rw [h]
    dsimp only
    rw [if_pos ⟨h0, hlt⟩]
  · have hn : ¬(0 ≤ i ∧ i < (tasks.length : Int)) := by omega
    unfold find_task_index
    dsimp only
    rw [h]
    dsimp only
    rw [if_neg hn]
  · have hn : ¬(0 ≤ i ∧ i < (tasks.length : Int)) := by omega
    unfold find_task_index
    dsimp only
    rw [if_neg hn]

/-- Witness for C10: reference "0" resolves to position 0 even though the
description of the task at position 1 contains the digit string "0". -/
theorem C10_witness :
    pyParseInt "0" = some 0 ∧
      find_task_index
          [{ task := "alpha", owner := "A" }, { task := "task 0", owner := "B" }]
          (TaskRef.str "0") = some 0 :=
  ⟨by decide,
    (C10_numeric_resolution
        [{ task := "alpha", owner := "A" }, { task := "task 0", owner := "B" }]
        "0" 0 (by decide)).1 (by decide) (by decide)⟩

/-- C2 counterexample: for the email buffer "fyi please " — which contains
the politeness marker "please" and matches no task-producing rule — the
claim predicts the low-confidence "Review and respond" task, but the
no-action branch is checked first, so `extract_task` returns no task. -/
theorem C2_counterexample :
    politenessCond "fyi please" "" = true ∧
      (extract_task [] "fyi please" "email" "" (fun _ => "2026-10-14")
        0).1.task = none := by
  constructor <;> decide

/-- C2 amended: for source "email", when no task-producing rule above the
no-action branch matches, the explicit no-task markers are checked BEFORE
the politeness catch-all: any no-task marker forces the task to be absent
(with confidence "low") even if a politeness marker is present, and only
when no no-task marker occurs does a politeness marker produce the
low-confidence generic "Review and respond" task. -/
theorem C2_no_task_markers_take_priority (st : List AuditEntry)
    (content subj : String) (fmtDate : Nat → String) (now : Nat)
    (hprior : emailPriorMatch content subj = false) :
    (noActionCond content subj = true →
        (extract_task st content "email" subj fmtDate now).1.task = none ∧
        (extract_task st content "email" subj fmtDate now).1.confidence
          = "low") ∧
      (noActionCond content subj = false →
        politenessCond content subj = true →
        (extract_task st content "email" subj fmtDate now).1.task
            = some ("Review and respond: " ++ pyTake subj 50) ∧
          (extract_task st content "email" subj fmtDate now).1.assignee
            = "You" ∧
          (extract_task st content "email" subj fmtDate now).1.confidence
            = "low") := by
  have hR := emailRules_of_no_prior subj fmtDate
    (pyLower content ++ " " ++ pyLower subj) (pyLower subj) hprior
  constructor
  · intro hno
    rw [if_pos (show noActionOn (pyLower content ++ " " ++ pyLower subj)
      = true from hno)] at hR
    simp [extract_task_fst, extractCand_email, hR]
  · intro hno hpol
    rw [if_neg (show ¬noActionOn (pyLower content ++ " " ++ pyLower subj)
        = true by simp [show noActionOn (pyLower content ++ " " ++ pyLower subj)
          = false from hno]),
      if_pos (show politenessOn (pyLower content ++ " " ++ pyLower subj)
        = true from hpol)] at hR
    simp [extract_task_fst, extractCand_email, hR]

/-- Witness for C2 at the buffer "fyi please " (no higher rule matches, a
no-task marker and a politeness marker are both present, the task is
absent). -/
theorem C2_witness :
    emailPriorMatch "fyi please" "" = false ∧
      noActionCond "fyi please" "" = true ∧
      (extract_task [] "fyi please" "email" "" (fun _ => "2026-10-14")
          0).1.task = none ∧
      (extract_task [] "fyi please" "email" "" (fun _ => "2026-10-14")
          0).1.confidence = "low" :=
  ⟨by decide, by decide,
    (C2_no_task_markers_take_priority [] "fyi please" ""
        (fun _ => "2026-10-14") 0 (by decide)).1 (by decide)⟩

/-- C3 counterexample: a slack message whose channel name contains
"deployment" but whose body does not produces NO task — the slack rules test
only the lower-cased content (`text`), not the combined buffer, so the claim
that all sources match over the combined buffer fails. -/
theorem C3_counterexample :
    pyIn "deployment" (pyLower "hello" ++ " " ++ pyLower "deployment-notices")
        = true ∧
      (extract_task [] "hello" "slack" "deployment-notices"
        (fun _ => "2026-10-14") 0).1.task = none := by
  constructor <;> decide

/-- C3 amended: for source "slack" the rule predicates are evaluated over the
lower-cased content alone (the channel name is ignored for matching):
"check"+"logs" in the content yields the medium-confidence "Check server
logs" task, else "deployment" in the content yields the medium-confidence
"Update deployment checklist" task, else no task; in particular slack content
"please check the logs" yields task "Check server logs" with confidence
"medium". -/
theorem C3_slack_rules_content_only (st : List AuditEntry)
    (content subj : String) (fmtDate : Nat → String) (now : Nat) :
    ((extract_task st content "slack" subj fmtDate now).1.task,
        (extract_task st content "slack" subj fmtDate now).1.confidence) =
      (if pyIn "check" (pyLower content) && pyIn "logs" (pyLower content) then
          (some "Check server logs", "medium")
        else if pyIn "deployment" (pyLower content) then
          (some "Update deployment checklist", "medium")
        else (none, "low")) ∧
      (extract_task [] "please check the logs" "slack" ""
          (fun _ => "2026-10-14") 0).1.task = some "Check server logs" ∧
      (extract_task [] "please check the logs" "slack" ""
          (fun _ => "2026-10-14") 0).1.confidence = "medium" := by
  refine ⟨?_, by decide, by decide⟩
  simp only [extract_task_fst, extractCand_slack]
  unfold slackRules
  split_ifs <;> rfl

/-- The email rule chain satisfies the output-shape invariant: a task is
produced exactly when a task-producing branch is the first to fire, an
absent task comes with no deadline and confidence "low", and a present task
comes with a deadline and one of the three confidence tiers. -/
theorem emailRules_invariant (subj : String) (fmtDate : Nat → String)
    (cb sub : String) :
    ((emailRules subj fmtDate cb sub).1.isSome
        = (emailPriorMatchOn cb sub
          || (!noActionOn cb && politenessOn cb))) ∧
      ((emailRules subj fmtDate cb sub).1 = none →
        (emailRules subj fmtDate cb sub).2.2.1 = none ∧
          (emailRules subj fmtDate cb sub).2.2.2 = "low") ∧
      ((emailRules subj fmtDate cb sub).1.isSome = true →
        (emailRules subj fmtDate cb sub).2.2.1.isSome = true ∧
          ((emailRules subj fmtDate cb sub).2.2.2 = "high" ∨
            (emailRules subj fmtDate cb sub).2.2.2 = "medium" ∨
            (emailRules subj fmtDate cb sub).2.2.2 = "low")) := by
  unfold emailRules emailPriorMatchOn noActionOn politenessOn
  by_cases h1 : (pyIn "revised document" cb || pyIn "send the revised document" cb) = true
  · simp [h1]
  by_cases h2 : (pyIn "follow up with the client" cb || (pyIn "follow up" cb && pyIn "client" cb)) = true
  · simp [h1, h2]
  by_cases h3 : (pyIn "urgent" sub || pyIn "asap" cb || pyIn "immediately" cb) = true
  · simp [h1, h2, h3]
  by_cases h4 : (pyIn "password reset" cb || (pyIn "password" cb && pyIn "reset" cb)) = true
  · simp [h1, h2, h3, h4]
  by_cases h5 : (pyIn "phishing" cb || pyIn "security" cb) = true
  · simp [h1, h2, h3, h4, h5]
  by_cases h6 : (pyIn "revisions" cb || (pyIn "update" cb && pyIn "version" cb)) = true
  · simp [h1, h2, h3, h4, h5, h6]
  by_cases h7 : (pyIn "please review" cb || (pyIn "review" cb && !pyIn "resolved" cb)) = true
  · simp [h1, h2, h3, h4, h5, h6, h7]
  by_cases h8 : (pyIn "please check" cb || (pyIn "check" cb && !pyIn "deployment" cb)) = true
  · simp [h1, h2, h3, h4, h5, h6, h7, h8]
  by_cases h9 : (pyIn "quote" cb || pyIn "proposal" cb) = true
  · simp [h1, h2, h3, h4, h5, h6, h7, h8, h9]
  by_cases h10 : (pyIn "confirm" cb || (pyIn "approval" cb && pyIn "go-live" cb)) = true
  · simp [h1, h2, h3, h4, h5, h6, h7, h8, h9, h10]
  by_cases h11 : (pyIn "schedule" cb || (pyIn "meeting" cb && (pyIn "schedule" cb || pyIn "propose" cb))) = true
  · simp [h1, h2, h3, h4, h5, h6, h7, h8, h9, h10, h11]
  by_cases h12 : (pyIn "invoice" cb || pyIn "payment" cb || pyIn "billing" cb) = true
  · simp [h1, h2, h3, h4, h5, h6, h7, h8, h9, h10, h11, h12]
  by_cases h13 : (pyIn "feedback" cb || (pyIn "report" cb && !pyIn "outage" cb) || pyIn "summary" cb || pyIn "submit" cb) = true
  · simp [h1, h2, h3, h4, h5, h6, h7, h8, h9, h10, h11, h12, h13]
  by_cases h14 : (pyIn "training" cb || pyIn "compliance" cb || pyIn "acknowledge" cb || (pyIn "policy" cb && pyIn "read" cb)) = true
  · simp [h1, h2, h3, h4, h5, h6, h7, h8, h9, h10, h11, h12, h13, h14]
  by_cases h15 : (pyIn "contract" cb || (pyIn "review" cb && pyIn "contract" cb)) = true
  · simp [h1, h2, h3, h4, h5, h6, h7, h8, h9, h10, h11, h12, h13, h14, h15]
  by_cases h16 : (pyIn "data" cb || (pyIn "export" cb && pyIn "data" cb)) = true
  · simp [h1, h2, h3, h4, h5, h6, h7, h8, h9, h10, h11, h12, h13, h14, h15, h16]
  by_cases h17 : (pyIn "approve" cb && (pyIn "post" cb || pyIn "copy" cb || pyIn "campaign" cb)) = true
  · simp [h1, h2, h3, h4, h5, h6, h7, h8, h9, h10, h11, h12, h13, h14, h15, h16, h17]
  by_cases h18 : (pyIn "incident" cb || pyIn "outage" cb) = true
  · simp [h1, h2, h3, h4, h5, h6, h7, h8, h9, h10, h11, h12, h13, h14, h15, h16, h17, h18]
  by_cases h19 : (pyIn "change request" cb || pyIn "scope change" cb) = true
  · simp [h1, h2, h3, h4, h5, h6, h7, h8, h9, h10, h11, h12, h13, h14, h15, h16, h17, h18, h19]
  by_cases h20 : (pyIn "recruit" cb || pyIn "research" cb || pyIn "study" cb) = true
  · simp [h1, h2, h3, h4, h5, h6, h7, h8, h9, h10, h11, h12, h13, h14, h15, h16, h17, h18, h19, h20]
  by_cases h21 : (pyIn "press" cb) = true
  · simp [h1, h2, h3, h4, h5, h6, h7, h8, h9, h10, h11, h12, h13, h14, h15, h16, h17, h18, h19, h20, h21]
  by_cases h22 : (pyIn "finalize" cb || pyIn "sow" cb) = true
  · simp [h1, h2, h3, h4, h5, h6, h7, h8, h9, h10, h11, h12, h13, h14, h15, h16, h17, h18, h19, h20, h21, h22]
  by_cases h23 : (pyIn "renewal" cb) = true
  · simp [h1, h2, h3, h4, h5, h6, h7, h8, h9, h10, h11, h12, h13, h14, h15, h16, h17, h18, h19, h20, h21, h22, h23]
  by_cases h24 : (pyIn "no action" cb || pyIn "fyi" cb || pyIn "digest" cb || pyIn "resolved" cb || pyIn "deployment" cb) = true
  · simp [h1, h2, h3, h4, h5, h6, h7, h8, h9, h10, h11, h12, h13, h14, h15, h16, h17, h18, h19, h20, h21, h22, h23, h24]
  by_cases h25 : (anyIn cb ["can you", "could you", "please", "would you"]) = true
  · simp [h1, h2, h3, h4, h5, h6, h7, h8, h9, h10, h11, h12, h13, h14, h15, h16, h17, h18, h19, h20, h21, h22, h23, h24, h25]
  simp [h1, h2, h3, h4, h5, h6, h7, h8, h9, h10, h11, h12, h13, h14, h15, h16, h17, h18, h19, h20, h21, h22, h23, h24, h25]

/-- The calendar rule satisfies the output-shape invariant. -/
theorem calendarRules_invariant (fmtDate : Nat → String) (text : String) :
    ((calendarRules fmtDate text).1.isSome = pyIn "prepare" text) ∧
      ((calendarRules fmtDate text).1 = none →
        (calendarRules fmtDate text).2.2.1 = none ∧
          (calendarRules fmtDate text).2.2.2 = "low") ∧
      ((calendarRules fmtDate text).1.isSome = true →
        (calendarRules fmtDate text).2.2.1.isSome = true ∧
          ((calendarRules fmtDate text).2.2.2 = "high" ∨
            (calendarRules fmtDate text).2.2.2 = "medium" ∨
            (calendarRules fmtDate text).2.2.2 = "low")) := by
  unfold calendarRules
  by_cases h : pyIn "prepare" text = true
  · simp [h]
  simp [h]

/-- The slack rules satisfy the output-shape invariant. -/
theorem slackRules_invariant (fmtDate : Nat → String) (text : String) :
    ((slackRules fmtDate text).1.isSome
        = ((pyIn "check" text && pyIn "logs" text)
          || pyIn "deployment" text)) ∧
      ((slackRules fmtDate text).1 = none →
        (slackRules fmtDate text).2.2.1 = none ∧
          (slackRules fmtDate text).2.2.2 = "low") ∧
      ((slackRules fmtDate text).1.isSome = true →
        (slackRules fmtDate text).2.2.1.isSome = true ∧
          ((slackRules fmtDate text).2.2.2 = "high" ∨
            (slackRules fmtDate text).2.2.2 = "medium" ∨
            (slackRules fmtDate text).2.2.2 = "low")) := by
  unfold slackRules
  by_cases h1 : (pyIn "check" text && pyIn "logs" text) = true
  · simp [h1]
  by_cases h2 : pyIn "deployment" text = true
  · simp [h1, h2]
  simp [h1, h2]

/-- C4: the candidate returned by `extract_task` satisfies the output
invariant: a task is present exactly when a task-producing rule is the first
to match (`ruleMatched`); an absent task comes with an absent deadline and
confidence "low"; a present task comes with a deadline and a confidence in
{high, medium, low}. -/
theorem C4_output_invariant (st : List AuditEntry)
    (content source subj : String) (fmtDate : Nat → String) (now : Nat) :
    ((extract_task st content source subj fmtDate now).1.task.isSome
        = ruleMatched content source subj) ∧
      ((extract_task st content source subj fmtDate now).1.task = none →
        (extract_task st content source subj fmtDate now).1.deadline = none ∧
          (extract_task st content source subj fmtDate now).1.confidence
            = "low") ∧
      ((extract_task st content source subj fmtDate now).1.task.isSome
          = true →
        (extract_task st content source subj fmtDate now).1.deadline.isSome
            = true ∧
          ((extract_task st content source subj fmtDate now).1.confidence
              = "high" ∨
            (extract_task st content source subj fmtDate now).1.confidence
              = "medium" ∨
            (extract_task st content source subj fmtDate now).1.confidence
              = "low")) := by
  simp only [extract_task_fst]
  unfold extractCand ruleMatched emailPriorMatch noActionCond politenessCond
  dsimp only
  split_ifs
  · exact emailRules_invariant subj fmtDate _ _
  · exact calendarRules_invariant fmtDate _
  · exact slackRules_invariant fmtDate _
  · simp

/-- Witness for C4: an email with no matching rule has no deadline, and a
matching slack message has one. -/
theorem C4_witness :
    (extract_task [] "zzz" "email" "" (fun _ => "2026-10-14") 0).1.deadline
        = none ∧
      (extract_task [] "please check the logs" "slack" ""
        (fun _ => "2026-10-14") 0).1.deadline.isSome = true := by
  have hA := C4_output_invariant [] "zzz" "email" "" (fun _ => "2026-10-14") 0
  have hB := C4_output_invariant [] "please check the logs" "slack" ""
    (fun _ => "2026-10-14") 0
  exact ⟨(hA.2.1 (by decide)).1, (hB.2.2 (by decide)).1⟩

/-- C6 counterexample: with the NLP backend available, a message ("x") that
matches no keyword group but whose grammatical root verb lemmatises to
"complete" makes `NLPAgent.get_response` return action "complete" with
confidence "high", while `TaskAgent.get_response` returns "acknowledge" with
confidence "low" — the two strategies are not equivalent. -/
theorem C6_counterexample :
    (NLPAgent_get_response (some (fun _ => [("ROOT", "complete")])) "t"
        "x").action = "complete" ∧
      (NLPAgent_get_response (some (fun _ => [("ROOT", "complete")])) "t"
        "x").confidence = "high" ∧
      (TaskAgent_get_response "t" "x").action = "acknowledge" ∧
      (TaskAgent_get_response "t" "x").confidence = "low" :=
  ⟨by decide, by decide, by decide, by decide⟩

/-- C6 amended: the two strategies agree on action and confidence whenever
the root-verb fallback does not classify a message as "complete" without a
completion keyword being present; every other intent (keyword groups, and
every other root verb of the fixed vocabulary) is relayed to the rule-based
strategy unchanged.  (With the backend unavailable the enhanced strategy is
the rule-based strategy by definition.) -/
theorem C6_strategies_agree (f : String → List (String × String))
    (t m : String)
    (h : rootIntentLoop (f m) = "complete" →
      anyIn (pyLower m) ["done", "completed", "finished", "complete"]
        = true) :
    (NLPAgent_get_response (some f) t m).action
        = (TaskAgent_get_response t m).action ∧
      (NLPAgent_get_response (some f) t m).confidence
        = (TaskAgent_get_response t m).confidence := by
  by_cases hkw : anyIn (pyLower m) ["done", "completed", "finished",
      "complete"] = true
  · unfold NLPAgent_get_response extract_intent TaskAgent_get_response
    simp [hkw]
  · have hint : extract_intent (some f) m ≠ "complete" := by
      intro hc
      unfold extract_intent at hc
      rw [if_neg hkw] at hc
      split_ifs at hc <;> simp_all
    unfold NLPAgent_get_response
    rw [if_neg (by simpa using hint)]
    split_ifs <;> exact ⟨rfl, rfl⟩

/-- Witness for C6 with a backend that finds no usable root verb. -/
theorem C6_witness :
    (rootIntentLoop ((fun _ : String => ([] : List (String × String))) "x")
          = "complete" →
        anyIn (pyLower "x") ["done", "completed", "finished", "complete"]
          = true) ∧
      (NLPAgent_get_response (some (fun _ => [])) "t" "x").action
        = (TaskAgent_get_response "t" "x").action :=
  ⟨by decide, (C6_strategies_agree (fun _ => []) "t" "x" (by decide)).1⟩
